import Mathlib

/-!
Shallow embedding of the iOS device-management core of the dinghy repository
(src/src/ios/mod.rs), together with theorems settling the specification claims
about it.

The native "MobileDevice" subsystem (AMDevice* calls), the filesystem and the
sockets are modelled as explicit environments: every native call site of the
Rust source becomes a field of an environment record holding that call's return
value, and the Rust control flow around those calls is translated verbatim.
Errors in the source are error-chain strings; they are modelled by the tagged
type DError, with the string produced by mk_result (format "error: x" around
the native code) modelled as DError.protocol carrying that code.
-/

namespace Dinghy

/-- The typed value model decoded from native property values
(enum Value in src/src/ios/mod.rs, lines 134-140). -/
inductive Value
  | String (s : String)
  | Data (b : List Nat)
  | I64 (i : Int)
  | Boolean (b : Bool)
deriving DecidableEq

/-- Errors of the program. The source uses error-chain strings; the variants
here keep the information those strings carry: protocol holds the native code
from mk_result (source line 144), pairingLost is the "lost pairing" error
(line 252), unknownValue is the "unknown value" decode error (line 173),
msg covers the remaining fixed message strings. -/
inductive DError
  | protocol (code : Int)
  | pairingLost
  | unknownValue
  | msg (s : String)
deriving DecidableEq

/-- mk_result (source lines 142-148): a non-zero native return value becomes
an error carrying that code, zero is success. -/
def mk_result (rv : Int) : Except DError Unit :=
  if rv ≠ 0 then .error (.protocol rv) else .ok ()

/-! ## Value Decoder (rustify, source lines 150-175) -/

/-- Model of an opaque native CFTypeRef value: its concrete native type plus
the data the decoder can extract from it. A number carries the result of the
to_i64 extraction (none when the number is not representable as a 64-bit
integer); a boolean carries the result of the sentinel comparison of the raw
reference against kCFBooleanTrue. An unrecognized concrete type is other. -/
inductive CFValue
  | string (s : String)
  | data (b : List Nat)
  | number (toI64 : Option Int)
  | boolean (isTrueSentinel : Bool)
  | other (typeTag : Nat)
deriving DecidableEq

/-- rustify (source lines 150-175): sequential type-id dispatch. A string
becomes Value.String, a byte buffer Value.Data, a number with a successful
to_i64 becomes Value.I64; a number whose to_i64 fails falls through every
branch (its type id is CFNumber, not CFBoolean) to the "unknown value" error,
as does any unrecognized concrete type. A boolean becomes Value.Boolean of
the sentinel comparison. -/
def rustify (raw : CFValue) : Except DError Value :=
  match raw with
  | .string s => .ok (.String s)
  | .data b => .ok (.Data b)
  | .number (some i) => .ok (.I64 i)
  | .number none => .error .unknownValue
  | .boolean t => .ok (.Boolean t)
  | .other _ => .error .unknownValue

/-! ## Session Guard (ensure_session, source lines 246-269; Drop, 271-284) -/

/-- The native calls the Session Guard can issue, in the vocabulary of the
AMDevice API used by the source. -/
inductive NativeCall
  | connect
  | isPaired
  | validatePairing
  | startSession
  | stopSession
  | disconnect
deriving DecidableEq

/-- Environment: return values of the native session calls for one device.
paired is the return of AMDeviceIsPaired (zero means not paired). -/
structure DeviceEnv where
  connect_rv : Int
  paired : Int
  validate_rv : Int
  startSession_rv : Int
  stopSession_rv : Int
  disconnect_rv : Int
deriving DecidableEq

/-- Session (source line 244): holds the device pointer; devNonNull records
whether that pointer is non-null (it always is when produced by
ensure_session, which stores the dev argument). -/
structure Session where
  devNonNull : Bool
deriving DecidableEq

/-- ensure_session (source lines 246-269): connect, then the is-paired check
(zero return means pairing lost), then validate pairing, then start session,
each via mk_result, short-circuiting on the first failure. Returns the trace
of native calls issued together with the result. -/
def ensure_session (env : DeviceEnv) : List NativeCall × Except DError Session :=
  match mk_result env.connect_rv with
  | .error e => ([.connect], .error e)
  | .ok _ =>
    if env.paired = 0 then ([.connect, .isPaired], .error .pairingLost)
    else
      match mk_result env.validate_rv with
      | .error e => ([.connect, .isPaired, .validatePairing], .error e)
      | .ok _ =>
        match mk_result env.startSession_rv with
        | .error e =>
            ([.connect, .isPaired, .validatePairing, .startSession], .error e)
        | .ok _ =>
            ([.connect, .isPaired, .validatePairing, .startSession], .ok ⟨true⟩)

/-- Drop for Session (source lines 271-284): when the stored pointer is
non-null, stop the session then disconnect; each failure is caught by an
if-let and only logged. Returns the trace of native calls and the list of
logged (swallowed) errors; the function itself is total and never produces
an error value. -/
def sessionDrop (env : DeviceEnv) (s : Session) : List NativeCall × List DError :=
  if s.devNonNull then
    let log1 := match mk_result env.stopSession_rv with
      | .error e => [e]
      | .ok _ => []
    let log2 := match mk_result env.disconnect_rv with
      | .error e => [e]
      | .ok _ => []
    ([.stopSession, .disconnect], log1 ++ log2)
  else ([], [])

/-- Scoped use of a session, as the source's callers do with
"let _session = ensure_session(dev)?": open the session, run the body, and
run Drop on every exit from the scope, the body's result (success or error)
being returned unchanged. When ensure_session itself fails no Session exists
and no release runs. -/
def withSession {α : Type} (env : DeviceEnv) (body : Session → Except DError α) :
    List NativeCall × Except DError α :=
  match ensure_session env with
  | (tr, .error e) => (tr, .error e)
  | (tr, .ok s) =>
      let r := body s
      let (dtr, _logged) := sessionDrop env s
      (tr ++ dtr, r)

/-! ## Disk Image Mounter (mount_developper_image, source lines 214-242;
device_support_path, lines 194-212) -/

/-- Model of Rust's str::split with a one-character separator, on the char
list of the string: "13.4.1" yields ["13", "4", "1"], the empty string yields
[""]. -/
def splitOnChar (sep : Char) : List Char → List (List Char)
  | [] => [[]]
  | c :: rest =>
    match splitOnChar sep rest with
    | [] => if c = sep then [[], []] else [[c]]
    | g :: gs => if c = sep then [] :: g :: gs else (c :: g) :: gs

/-- Model of joining string pieces with "." (the join(".") of the source). -/
def joinDots : List (List Char) → List Char
  | [] => []
  | [g] => g
  | g :: gs => g ++ '.' :: joinDots gs

/-- Model of Rust's str::starts_with on char lists: does the first list start
with the second. -/
def startsWithChars : List Char → List Char → Bool
  | _, [] => true
  | [], _ :: _ => false
  | c :: cs, p :: ps => (c = p) && startsWithChars cs ps

/-- two_token_version: the OS-version manipulation inside device_support_path
(source line 198): split the dotted version string on ".", keep the first two
components, rejoin with ".". -/
def two_token_version (v : String) : String :=
  String.mk (joinDots ((splitOnChar '.' v.data).take 2))

/-- device_support_path (source lines 194-212), with the host filesystem
modelled as the ordered list of entry names the directory scan yields: the
first entry whose name starts with the two-token version prefix is selected;
none when no entry matches. (The source returns the joined path of that
entry; the model returns the selected entry name.) -/
def device_support_path (entries : List String) (version : String) : Option String :=
  entries.find? (fun last => startsWithChars last.data (two_token_version version).data)

/-- The use of device_support_path inside mount_developper_image (source line
218): a missing match becomes the "No device support found in xcode" error
via ok_or. -/
def mount_support_lookup (entries : List String) (version : String) :
    Except DError String :=
  match device_support_path entries version with
  | some p => .ok p
  | none => .error (.msg "No device support found in xcode")

/-- The status handling of the AMDeviceMountImage return value inside
mount_developper_image (source lines 235-240): the return value r
reinterpreted as an unsigned 32-bit integer (the source's "r as u32",
modelled as r.emod 2^32) equal to 0xe8000076 means "already mounted" and is
success; otherwise the value goes through mk_result. -/
def mount_status_result (r : Int) : Except DError Unit :=
  if r.emod 4294967296 = 0xe8000076 then .ok ()
  else mk_result r

/-- Modelled from the spec: the native AMDeviceMountImage call (external to
this repository) returns 0 when it mounts the image and thereafter the
specific status meaning "image already mounted" (0xe8000076 as an unsigned
32-bit value, i.e. -402653066 as a signed 32-bit return). Takes and returns
the device's mounted flag. -/
def amDeviceMountImage (mounted : Bool) : Int × Bool :=
  if mounted then (-402653066, true) else (0, true)

/-- One call of the mount operation against the modelled native state: the
native call's return value goes through the source's status handling. -/
def mount_call (mounted : Bool) : Except DError Unit × Bool :=
  let (r, m) := amDeviceMountImage mounted
  (mount_status_result r, m)

/-- Two successive mount calls starting from an unmounted device: the pair of
results the caller observes. -/
def mountTwice : Except DError Unit × Except DError Unit :=
  let (r1, m) := mount_call false
  let (r2, _) := mount_call m
  (r1, r2)

/-! ## Device Registry and discovery (source lines 90-132) -/

/-- IosDevice (source lines 20-26); the raw device pointer is modelled as a
Nat identifier. -/
structure IosDevice where
  ptr : Nat
  id : String
  name : String
  arch_cpu : String
deriving DecidableEq

/-- target_arch of the Device trait impl (source lines 37-39). -/
def IosDevice.target_arch (d : IosDevice) : String := d.arch_cpu

/-- target_vendor of the Device trait impl (source lines 40-42). -/
def IosDevice.target_vendor (_ : IosDevice) : String := "apple"

/-- target_os of the Device trait impl (source lines 43-45). -/
def IosDevice.target_os (_ : IosDevice) : String := "ios"

/-- Environment for IosDevice::from (source lines 64-88): the result of the
ensure_session call, the results of the two device_read_value property reads
(each an error or an optional decoded value, exactly as
device_read_value returns Result of Option of Value), and the raw value
AMDeviceCopyDeviceIdentifier yields, which goes through rustify. -/
structure PropEnv where
  session_result : Except DError Unit
  deviceName : Except DError (Option Value)
  cpuArch : Except DError (Option Value)
  identifierRaw : CFValue

/-- IosDevice::from (source lines 64-88): open a session (propagating its
error), read DeviceName (must be a string), read CPUArchitecture (the string
"arm64" yields "aarch64", anything else — other string, non-string value or
missing property — yields "armv7"), decode the copied identifier (must be a
string). -/
def IosDevice.fromRaw (p : Nat) (env : PropEnv) : Except DError IosDevice :=
  match env.session_result with
  | .error e => .error e
  | .ok _ =>
    match env.deviceName with
    | .error e => .error e
    | .ok (some (Value.String name)) =>
      match env.cpuArch with
      | .error e => .error e
      | .ok cv =>
        let cpu : String := match cv with
          | some (Value.String v) => if v = "arm64" then "aarch64" else "armv7"
          | _ => "armv7"
        match rustify env.identifierRaw with
        | .ok (Value.String i) =>
            .ok { ptr := p, id := i, name := name, arch_cpu := cpu }
        | .ok _ => .error (.msg "unexpected id format")
        | .error e => .error e
    | .ok _ => .error (.msg "DeviceName should have been a string")

/-- Outcome of the discovery callback: either the registry with the new entry
appended, or a panic (the thread aborts) from the unwrap. -/
inductive CallbackOutcome
  | appended (reg : List IosDevice)
  | panicked (e : DError)
deriving DecidableEq

/-- device_callback (source lines 111-118): the resolved device
(IosDevice::from's result) is unwrapped — an error panics the worker — and
on success pushed onto the shared registry vector. No deduplication is
performed. -/
def device_callback (resolve : Except DError IosDevice) (reg : List IosDevice) :
    CallbackOutcome :=
  match resolve with
  | .error e => .panicked e
  | .ok d => .appended (reg ++ [d])

/-- IosManager::devices (source lines 127-132): returns a fresh list holding
a clone of every registry entry — a snapshot copy of the current contents.
(The mutex around the registry is not modelled; the non-poisoned path is.) -/
def list_devices (reg : List IosDevice) : List IosDevice :=
  reg.map (fun d => d)

/-! ## Proxy Bridge (start_lldb_proxy's server, source lines 336-361) -/

/-- An I/O error, carrying whether it is the would-block kind. -/
inductive IOErr
  | wouldBlock
  | other (code : Nat)
deriving DecidableEq

/-- Result of a non-blocking read: Ok with the bytes read (empty means the
peer closed), or an error. -/
inductive ReadRes
  | ok (data : List Nat)
  | err (e : IOErr)
deriving DecidableEq

/-- Result of a write_all call. -/
inductive WriteRes
  | ok
  | err (e : IOErr)
deriving DecidableEq

/-- One iteration of the relay loop's scripted environment: what the client
stream read returns, what the device read returns (consulted only when the
stream read errs), and what each write_all returns (consulted only when the
corresponding read produced data). -/
structure RelayStep where
  streamRead : ReadRes
  deviceRead : ReadRes
  deviceWrite : WriteRes
  streamWrite : WriteRes
deriving DecidableEq

/-- How the relay loop for one accepted connection ends: closed via the
zero-byte-read break, ioError via a write error propagated by the question
mark operator out of the loop, or running when the script is exhausted with
the loop still going. -/
inductive ConnEnd
  | closed
  | ioError (e : IOErr)
  | running
deriving DecidableEq

/-- The inner relay loop (source lines 342-356), one script step per
iteration: if the stream read is Ok it breaks on zero bytes or writes to the
device (a write error propagates); else if the device read is Ok it breaks
on zero bytes or writes to the stream; else — both reads errored, whatever
the error kind — sleep and retry. -/
def relayLoop : List RelayStep → ConnEnd
  | [] => .running
  | step :: rest =>
    match step.streamRead with
    | .ok data =>
      if data.length = 0 then .closed
      else match step.deviceWrite with
        | .ok => relayLoop rest
        | .err e => .ioError e
    | .err _ =>
      match step.deviceRead with
      | .ok data =>
        if data.length = 0 then .closed
        else match step.streamWrite with
          | .ok => relayLoop rest
          | .err e => .ioError e
      | .err _ => relayLoop rest

/-- One accepted connection of the bridge: the result of the
set_nonblocking call on it (source line 340; an error propagates), and the
scripted relay steps. -/
structure Conn where
  setNonblockingErr : Option IOErr
  steps : List RelayStep
deriving DecidableEq

/-- Final state of the server function (source lines 337-359) over a script
of accepted connections: waiting (all scripted connections relayed to orderly
close, accept loop ready for the next), dead (the function returned an error
through the question mark operator — after which the unwrap at line 360
panics the bridge thread), or stuck mid-relay on an exhausted script. served
counts the connections whose relay loop ended in orderly close. -/
inductive ServerState
  | waiting (served : Nat)
  | dead (served : Nat) (e : IOErr)
  | stuck (served : Nat)
deriving DecidableEq

/-- The server accept loop (source lines 338-357): connections are handled
strictly in sequence; a propagated error ends the whole function, not just
the current connection. -/
def serverRun (served : Nat) : List Conn → ServerState
  | [] => .waiting served
  | c :: rest =>
    match c.setNonblockingErr with
    | some e => .dead served e
    | none =>
      match relayLoop c.steps with
      | .closed => serverRun (served + 1) rest
      | .ioError e => .dead served e
      | .running => .stuck served

/-! ## Launch Script Builder (launch_lldb, source lines 365-411) -/

/-- Single quotes around the sysroot, as the platform select line writes. -/
def squote (s : String) : String := "'" ++ s ++ "'"

/-- Double quotes, as the Debug formatting of the helper-module path inside
the command script import line produces. -/
def dquote (s : String) : String := "\"" ++ s ++ "\""

/-- The command script launch_lldb writes (source lines 387-406), line by
line and in order. -/
def launch_script (sysroot localBin helpers proxy remote args : String) :
    List String :=
  [ "platform select remote-ios --sysroot " ++ squote sysroot,
    "target create " ++ localBin,
    "script pass",
    "command script import " ++ dquote helpers,
    "command script add -f helpers.set_remote_path set_remote_path",
    "command script add -f helpers.connect_command connect",
    "command script add -s synchronous -f helpers.run_command run",
    "connect connect://" ++ proxy,
    "set_remote_path " ++ remote,
    "run " ++ args,
    "quit" ]

/-- The script lines the claim enumerates, in the claim's order (the spec's
command sequence: platform select, target create, helper import, the three
command registrations, connect, set_remote_path, run, quit). -/
def spec_script_lines (sysroot localBin helpers proxy remote args : String) :
    List String :=
  [ "platform select remote-ios --sysroot " ++ squote sysroot,
    "target create " ++ localBin,
    "command script import " ++ dquote helpers,
    "command script add -f helpers.set_remote_path set_remote_path",
    "command script add -f helpers.connect_command connect",
    "command script add -s synchronous -f helpers.run_command run",
    "connect connect://" ++ proxy,
    "set_remote_path " ++ remote,
    "run " ++ args,
    "quit" ]

/-- The debugger invocation (source line 409): program name and argument
list. -/
def lldb_command (scriptPath : String) : String × List String :=
  ("lldb", ["-Q", "-s", scriptPath])

/-- The handling of Command::status() at source line 409: a spawn failure
propagates through the question mark operator, but a status that arrives —
whatever the exit code — is discarded and the function returns Ok. -/
def launch_lldb_exit (status : Except DError Int) : Except DError Unit :=
  match status with
  | .error e => .error e
  | .ok _ => .ok ()

/-- A bridge script exercising the server's error scope: the first accepted
connection hits a non-would-block write error, the second would close in an
orderly way. -/
def c5_bridge_script : List Conn :=
  [ Conn.mk none [RelayStep.mk (.ok [1]) (.err .wouldBlock) (.err (.other 5)) .ok],
    Conn.mk none [RelayStep.mk (.ok []) (.err .wouldBlock) .ok .ok] ]

/-- A concrete device with identifier abc123, for the registry scenario. -/
def abcDevice : IosDevice :=
  { ptr := 0, id := "abc123", name := "some device", arch_cpu := "aarch64" }

/-! ## Theorems settling the claims -/

/-- Claim C1: opening a session performs exactly, in order, connect, the
is-paired check (failing when the device is not paired), validate-pairing and
start-session, a non-zero step failing with a typed error carrying the native
code; and on every exit from the scope holding the Session, release runs
stop-session then disconnect, with release failures never propagated to the
caller (the body's result is returned unchanged whatever the stop-session and
disconnect return codes) and never panicking. -/
theorem C1_session_guard :
    (∀ env : DeviceEnv,
      env.connect_rv = 0 → env.paired ≠ 0 → env.validate_rv = 0 →
      env.startSession_rv = 0 →
      ensure_session env =
        ([.connect, .isPaired, .validatePairing, .startSession], .ok ⟨true⟩))
  ∧ (∀ env : DeviceEnv, env.connect_rv ≠ 0 →
      ensure_session env = ([.connect], .error (.protocol env.connect_rv)))
  ∧ (∀ env : DeviceEnv, env.connect_rv = 0 → env.paired = 0 →
      ensure_session env = ([.connect, .isPaired], .error .pairingLost))
  ∧ (∀ env : DeviceEnv, env.connect_rv = 0 → env.paired ≠ 0 →
      env.validate_rv ≠ 0 →
      ensure_session env =
        ([.connect, .isPaired, .validatePairing],
         .error (.protocol env.validate_rv)))
  ∧ (∀ env : DeviceEnv, env.connect_rv = 0 → env.paired ≠ 0 →
      env.validate_rv = 0 → env.startSession_rv ≠ 0 →
      ensure_session env =
        ([.connect, .isPaired, .validatePairing, .startSession],
         .error (.protocol env.startSession_rv)))
  ∧ (∀ env : DeviceEnv, (sessionDrop env ⟨true⟩).1 = [.stopSession, .disconnect])
  ∧ (∀ (env : DeviceEnv) (α : Type) (body : Session → Except DError α),
      env.connect_rv = 0 → env.paired ≠ 0 → env.validate_rv = 0 →
      env.startSession_rv = 0 →
      withSession env body =
        ([.connect, .isPaired, .validatePairing, .startSession,
          .stopSession, .disconnect], body ⟨true⟩)) := by
  refine ⟨?_, ?_, ?_, ?_, ?_, ?_, ?_⟩
  · intro env h1 h2 h3 h4
    simp [ensure_session, mk_result, h1, h2, h3, h4]
  · intro env h1
    simp [ensure_session, mk_result, h1]
  · intro env h1 h2
    simp [ensure_session, mk_result, h1, h2]
  · intro env h1 h2 h3
    simp [ensure_session, mk_result, h1, h2, h3]
  · intro env h1 h2 h3 h4
    simp [ensure_session, mk_result, h1, h2, h3, h4]
  · intro env
    simp [sessionDrop]
  · intro env α body h1 h2 h3 h4
    simp [withSession, ensure_session, sessionDrop, mk_result, h1, h2, h3, h4]

/-- Witness for C1 at a concrete environment: the session opens with the full
call trace, and with failing release codes (stop-session 3, disconnect 4) the
scoped operation still returns the body's own error unchanged after running
stop-session then disconnect. -/
theorem C1_session_guard_witness :
    ensure_session ⟨0, 1, 0, 0, 3, 4⟩ =
      ([.connect, .isPaired, .validatePairing, .startSession], .ok ⟨true⟩)
  ∧ withSession (α := Nat) ⟨0, 1, 0, 0, 3, 4⟩ (fun _ => .error .pairingLost) =
      ([.connect, .isPaired, .validatePairing, .startSession,
        .stopSession, .disconnect], .error .pairingLost)
  ∧ ensure_session ⟨7, 1, 0, 0, 0, 0⟩ = ([.connect], .error (.protocol 7)) :=
  ⟨C1_session_guard.1 ⟨0, 1, 0, 0, 3, 4⟩ rfl (by decide) rfl rfl,
   C1_session_guard.2.2.2.2.2.2 ⟨0, 1, 0, 0, 3, 4⟩ Nat
     (fun _ => .error .pairingLost) rfl (by decide) rfl rfl,
   C1_session_guard.2.1 ⟨7, 1, 0, 0, 0, 0⟩ (by decide)⟩

/-- Claim C2: the decoder returns the tagged variant matching the value's
concrete native type — String for a string, Data for a byte buffer, a 64-bit
I64 for a number whose integer extraction succeeds, Boolean from the sentinel
comparison — and fails with the unknown-value error for a number that cannot
be represented as a 64-bit integer and for every other concrete type, never
producing a default or substitute value. -/
theorem C2_value_decoder :
    (∀ s : String, rustify (.string s) = .ok (.String s))
  ∧ (∀ b : List Nat, rustify (.data b) = .ok (.Data b))
  ∧ (∀ i : Int, rustify (.number (some i)) = .ok (.I64 i))
  ∧ rustify (.number none) = .error .unknownValue
  ∧ (∀ t : Bool, rustify (.boolean t) = .ok (.Boolean t))
  ∧ (∀ tag : Nat, rustify (.other tag) = .error .unknownValue) :=
  ⟨fun _ => rfl, fun _ => rfl, fun _ => rfl, rfl, fun _ => rfl, fun _ => rfl⟩

/-- Claim C3: a native mount status whose unsigned 32-bit reinterpretation is
the "already mounted" code 0xe8000076 is success for the caller, zero is
success, and every other non-zero status is an error carrying that code; two
successive mount calls starting from an unmounted device (modelled native
behavior) both succeed. -/
theorem C3_mount_idempotent :
    (∀ r : Int, r.emod 4294967296 = 0xe8000076 → mount_status_result r = .ok ())
  ∧ mount_status_result 0 = .ok ()
  ∧ (∀ r : Int, r ≠ 0 → r.emod 4294967296 ≠ 0xe8000076 →
      mount_status_result r = .error (.protocol r))
  ∧ mountTwice = (Except.ok (), Except.ok ()) := by
  refine ⟨?_, rfl, ?_, rfl⟩
  · intro r h
    simp [mount_status_result, h]
  · intro r h1 h2
    simp [mount_status_result, h2, mk_result, h1]

/-- Witness for C3 at concrete status codes: the already-mounted code as a
signed 32-bit return value succeeds, and the code 5 fails carrying 5. -/
theorem C3_mount_idempotent_witness :
    mount_status_result (-402653066) = .ok ()
  ∧ mount_status_result 5 = .error (.protocol 5) :=
  ⟨C3_mount_idempotent.1 (-402653066) (by decide),
   C3_mount_idempotent.2.2.1 5 (by decide) (by decide)⟩

/-- Claim C4: the support-image lookup takes the first two dot-separated
components of the device's OS version ("13.4.1" yields "13.4"), returns the
first scanned directory entry whose name starts with that two-component
version string, fails with the no-matching-support-image error when no entry
matches, and on directories 13.3, 13.4, 13.4.1 with device version 13.4.1 it
selects the first entry starting with "13.4", namely "13.4". -/
theorem C4_support_lookup :
    two_token_version "13.4.1" = "13.4"
  ∧ (∀ v : String, device_support_path [] v = none)
  ∧ (∀ (v e : String) (rest : List String),
      device_support_path (e :: rest) v =
        if startsWithChars e.data (two_token_version v).data
        then some e else device_support_path rest v)
  ∧ (∀ (entries : List String) (v : String),
      (∀ e ∈ entries, startsWithChars e.data (two_token_version v).data = false) →
      device_support_path entries v = none)
  ∧ device_support_path ["13.3", "13.4", "13.4.1"] "13.4.1" = some "13.4"
  ∧ (∀ (entries : List String) (v : String),
      device_support_path entries v = none →
      mount_support_lookup entries v =
        .error (.msg "No device support found in xcode")) := by
  refine ⟨by decide, fun _ => rfl, ?_, ?_, by decide, ?_⟩
  · intro v e rest
    by_cases h : startsWithChars e.data (two_token_version v).data
    · simp [device_support_path, List.find?, h]
    · simp only [Bool.not_eq_true] at h
      simp [device_support_path, List.find?, h]
  · intro entries v h
    simp only [device_support_path, List.find?_eq_none]
    intro e he
    simp [h e he]
  · intro entries v h
    simp [mount_support_lookup, h]

/-- Witness for C4 at concrete inputs: no entry of the directory list 12.9,
14.1 starts with "13.4", so the lookup yields none and the mounter's use of
it yields the no-device-support error. -/
theorem C4_support_lookup_witness :
    device_support_path ["12.9", "14.1"] "13.4.1" = none
  ∧ mount_support_lookup ["12.9", "14.1"] "13.4.1" =
      .error (.msg "No device support found in xcode") :=
  ⟨C4_support_lookup.2.2.2.1 ["12.9", "14.1"] "13.4.1" (by decide),
   C4_support_lookup.2.2.2.2.2 ["12.9", "14.1"] "13.4.1"
     (C4_support_lookup.2.2.2.1 ["12.9", "14.1"] "13.4.1" (by decide))⟩

/-- Claim C5 counterexample: with a non-would-block I/O error on the first
connection's device write, the whole server function returns the error (after
which the source's unwrap panics the bridge thread) having served no further
connection, instead of ending only that connection and serving the second
(which would be the waiting state with one served connection). -/
theorem C5_error_scope_counterexample :
    serverRun 0 c5_bridge_script = .dead 0 (.other 5)
  ∧ serverRun 0 c5_bridge_script ≠ .waiting 1 := by
  exact ⟨rfl, by decide⟩

/-- Claim C5 as amended: in the relay loop a failed read of any error kind —
would-block or any other — is treated as normal and the loop retries after
the sleep; but an I/O error from a write (propagated by the question mark
operator) ends the whole server function, so the bridge is dead — no
subsequent connection is served — rather than only that one connection
ending. -/
theorem C5_error_scope_amended :
    (∀ (e1 e2 : IOErr) (w1 w2 : WriteRes) (rest : List RelayStep),
      relayLoop (RelayStep.mk (.err e1) (.err e2) w1 w2 :: rest) = relayLoop rest)
  ∧ (∀ (d : List Nat) (rd : ReadRes) (e : IOErr) (w : WriteRes)
      (rest : List RelayStep), d ≠ [] →
      relayLoop (RelayStep.mk (.ok d) rd (.err e) w :: rest) = .ioError e)
  ∧ (∀ (steps : List RelayStep) (e : IOErr) (served : Nat) (conns : List Conn),
      relayLoop steps = .ioError e →
      serverRun served (Conn.mk none steps :: conns) = .dead served e) := by
  refine ⟨?_, ?_, ?_⟩
  · intro e1 e2 w1 w2 rest
    simp [relayLoop]
  · intro d rd e w rest h
    simp [relayLoop, h]
  · intro steps e served conns h
    simp [serverRun, h]

/-- Witness for C5's amended claim at concrete inputs: a device-write error
of kind other 5 ends the relay loop with that error, and the server over a
script holding that single connection is dead with it, no connection
served. -/
theorem C5_error_scope_amended_witness :
    relayLoop [RelayStep.mk (.ok [1]) (.err .wouldBlock) (.err (.other 5)) .ok] =
      .ioError (.other 5)
  ∧ serverRun 0
      [Conn.mk none [RelayStep.mk (.ok [1]) (.err .wouldBlock) (.err (.other 5)) .ok]] =
      .dead 0 (.other 5) :=
  ⟨C5_error_scope_amended.2.1 [1] (.err .wouldBlock) (.other 5) .ok [] (by decide),
   C5_error_scope_amended.2.2 _ (.other 5) 0 []
     (C5_error_scope_amended.2.1 [1] (.err .wouldBlock) (.other 5) .ok [] (by decide))⟩

/-- Claim C6: a read returning zero bytes from the local client stream, or
from the device socket when the stream read errs, ends the relay loop for
that connection with an orderly close; and after an orderly close the server
goes on to the next accepted connection (the bridge does not crash and keeps
accepting). -/
theorem C6_orderly_close :
    (∀ (st : RelayStep) (rest : List RelayStep),
      st.streamRead = .ok [] → relayLoop (st :: rest) = .closed)
  ∧ (∀ (st : RelayStep) (e : IOErr) (rest : List RelayStep),
      st.streamRead = .err e → st.deviceRead = .ok [] →
      relayLoop (st :: rest) = .closed)
  ∧ (∀ (served : Nat) (steps : List RelayStep) (conns : List Conn),
      relayLoop steps = .closed →
      serverRun served (Conn.mk none steps :: conns) = serverRun (served + 1) conns) := by
  refine ⟨?_, ?_, ?_⟩
  · intro st rest h
    simp [relayLoop, h]
  · intro st e rest h1 h2
    simp [relayLoop, h1, h2]
  · intro served steps conns h
    simp [serverRun, h]

/-- Witness for C6 at a concrete two-connection script: the first connection
closes via a zero-byte client read, the second via a zero-byte device read,
and the server ends waiting with both connections served. -/
theorem C6_orderly_close_witness :
    relayLoop [RelayStep.mk (.ok []) (.err .wouldBlock) .ok .ok] = .closed
  ∧ serverRun 0
      [Conn.mk none [RelayStep.mk (.ok []) (.err .wouldBlock) .ok .ok],
       Conn.mk none [RelayStep.mk (.err .wouldBlock) (.ok []) .ok .ok]] =
      .waiting 2 := by
  refine ⟨C6_orderly_close.1 (RelayStep.mk (.ok []) (.err .wouldBlock) .ok .ok) [] rfl, ?_⟩
  rw [C6_orderly_close.2.2 0 _ _
        (C6_orderly_close.1 (RelayStep.mk (.ok []) (.err .wouldBlock) .ok .ok) [] rfl),
      C6_orderly_close.2.2 1 _ []
        (C6_orderly_close.2.1 (RelayStep.mk (.err .wouldBlock) (.ok []) .ok .ok)
          .wouldBlock [] rfl rfl)]
  rfl

/-- Claim C7: listing devices returns a snapshot copy of the registry's
current contents; a successfully resolved notification appends its device to
the registry; starting from the empty registry one notification for device
abc123 leaves exactly one entry with that id in the listing, and a second
identical notification is appended as well, with no deduplication. -/
theorem C7_registry :
    (∀ reg : List IosDevice, list_devices reg = reg)
  ∧ (∀ (reg : List IosDevice) (d : IosDevice),
      device_callback (.ok d) reg = .appended (reg ++ [d]))
  ∧ device_callback (.ok abcDevice) [] = .appended [abcDevice]
  ∧ (list_devices [abcDevice] = [abcDevice]
     ∧ (list_devices [abcDevice]).length = 1
     ∧ abcDevice.id = "abc123")
  ∧ device_callback (.ok abcDevice) [abcDevice] =
      .appended [abcDevice, abcDevice] := by
  refine ⟨?_, fun _ _ => rfl, rfl, ⟨rfl, rfl, rfl⟩, rfl⟩
  intro reg
  simp [list_devices]

/-- Claim C8: when resolving a newly notified device's identity fails, the
discovery callback unwraps the error and panics the worker; the failing
device is not skipped (the registry is not left unchanged with the worker
alive) and the failure is not converted into an error result. -/
theorem C8_discovery_panics :
    ∀ (e : DError) (reg : List IosDevice),
      device_callback (.error e) reg = .panicked e
      ∧ device_callback (.error e) reg ≠ .appended reg := by
  intro e reg
  exact ⟨rfl, by simp [device_callback]⟩

/-- Claim C9: the generated command script contains, in order, the platform
select line with the support-image sysroot, the target create line for the
local binary, the helper import, the three custom command registrations, the
connect command for the proxy endpoint, the set-remote-path command, the run
command with the argument string, and quit; the debugger is invoked as lldb
-Q -s script-path, and an exit status that arrives is never surfaced as an
error. -/
theorem C9_launch_script :
    (∀ sysroot localBin helpers proxy remote args : String,
      List.Sublist (spec_script_lines sysroot localBin helpers proxy remote args)
        (launch_script sysroot localBin helpers proxy remote args))
  ∧ (∀ s : String, lldb_command s = ("lldb", ["-Q", "-s", s]))
  ∧ (∀ code : Int, launch_lldb_exit (.ok code) = .ok ()) := by
  refine ⟨?_, fun _ => rfl, fun _ => rfl⟩
  intro sysroot localBin helpers proxy remote args
  exact .cons₂ _ (.cons₂ _ (.cons _ (List.Sublist.refl _)))

/-- Claim C10: for every successfully constructed device the architecture tag
is aarch64 exactly when the CPUArchitecture read yielded the string arm64,
and armv7 in every other case, so target_arch only ever returns aarch64 or
armv7; target_vendor is constantly apple and target_os constantly ios. -/
theorem C10_arch_default :
    (∀ (p : Nat) (env : PropEnv) (d : IosDevice),
      IosDevice.fromRaw p env = .ok d →
      ((d.target_arch = "aarch64" ↔ env.cpuArch = .ok (some (Value.String "arm64")))
       ∧ (d.target_arch = "aarch64" ∨ d.target_arch = "armv7")))
  ∧ (∀ d : IosDevice, d.target_vendor = "apple" ∧ d.target_os = "ios") := by
  refine ⟨?_, fun _ => ⟨rfl, rfl⟩⟩
  intro p env d h
  obtain ⟨sr, dn, ca, ir⟩ := env
  simp only [IosDevice.fromRaw] at h
  cases sr with
  | error e => exact absurd h (by simp)
  | ok u =>
    cases dn with
    | error e => exact absurd h (by simp)
    | ok nv =>
      match nv with
      | none => exact absurd h (by simp)
      | some (Value.Data b) => exact absurd h (by simp)
      | some (Value.I64 i) => exact absurd h (by simp)
      | some (Value.Boolean b) => exact absurd h (by simp)
      | some (Value.String name) =>
        cases ca with
        | error e => exact absurd h (by simp)
        | ok cv =>
          cases hr : rustify ir with
          | error e => rw [hr] at h; exact absurd h (by simp)
          | ok v =>
            rw [hr] at h
            match v with
            | Value.Data b => exact absurd h (by simp)
            | Value.I64 i => exact absurd h (by simp)
            | Value.Boolean b => exact absurd h (by simp)
            | Value.String i =>
              simp only [Except.ok.injEq] at h
              subst h
              match cv with
              | none => simp [IosDevice.target_arch]
              | some (Value.Data b) => simp [IosDevice.target_arch]
              | some (Value.I64 n) => simp [IosDevice.target_arch]
              | some (Value.Boolean b) => simp [IosDevice.target_arch]
              | some (Value.String w) =>
                by_cases hw : w = "arm64"
                · subst hw
                  simp [IosDevice.target_arch]
                · simp [IosDevice.target_arch, hw]

/-- Witness for C10 at a concrete environment: with the CPUArchitecture read
yielding arm64 the constructed device's architecture is aarch64. -/
theorem C10_arch_default_witness :
    (IosDevice.fromRaw 0
        { session_result := .ok (),
          deviceName := .ok (some (Value.String "some device")),
          cpuArch := .ok (some (Value.String "arm64")),
          identifierRaw := .string "abc123" } =
      .ok { ptr := 0, id := "abc123", name := "some device", arch_cpu := "aarch64" })
  ∧ (IosDevice.target_arch
        { ptr := 0, id := "abc123", name := "some device", arch_cpu := "aarch64" } = "aarch64"
      ↔ (Except.ok (some (Value.String "arm64")) :
          Except DError (Option Value)) = .ok (some (Value.String "arm64"))) :=
  ⟨rfl,
   (C10_arch_default.1 0
      { session_result := .ok (),
        deviceName := .ok (some (Value.String "some device")),
        cpuArch := .ok (some (Value.String "arm64")),
        identifierRaw := .string "abc123" }
      { ptr := 0, id := "abc123", name := "some device", arch_cpu := "aarch64" }
      rfl).1⟩

end Dinghy
